import Mathlib

/-! Capability detection for the cgroup v2 hierarchy (pkg/sysinfo/cgroup2_linux.go)

A shallow embedding of `newV2`, `getSwapLimitV2` and the six `apply*CgroupInfoV2`
collectors.  The Go code mutates one `*SysInfo` in place and returns a slice of
warnings; here every collector is a pure function from the snapshot to the new
snapshot paired with the warnings it returns.  Everything the code reads from the
host (the cgroup manager, `/proc/self/cgroup`, `os.Stat`, `ioutil.ReadFile`,
`userns.RunningInUserNS`) is a field of `Env`.
-/

namespace Sysinfo

/-! ## Go standard library: `path.Join`, `strings.TrimSpace` -/

/-- Split a path at every slash; `"a//b"` gives `["a", "", "b"]`. -/
def splitSlash : List Char → List (List Char)
  | [] => [[]]
  | c :: cs =>
    match splitSlash cs with
    | [] => [[]]
    | w :: ws => if c = '/' then [] :: w :: ws else (c :: w) :: ws

/-- One step of `path.Clean` over the components; the stack holds the kept
components, last one first.  Empty and `.` components are dropped, `..` removes
the component before it, is dropped at the root of a rooted path and is kept at
the start of a relative one. -/
def cleanStep (rooted : Bool) (stack : List (List Char)) (c : List Char) : List (List Char) :=
  if c = [] ∨ c = ['.'] then stack
  else if c = ['.', '.'] then
    match stack with
    | top :: rest => if top = ['.', '.'] then c :: stack else rest
    | [] => if rooted then [] else [c]
  else c :: stack

/-- Components joined back with single slashes. -/
def joinSlash : List (List Char) → List Char
  | [] => []
  | [c] => c
  | c :: cs => c ++ '/' :: joinSlash cs

/-- Go `path.Clean`: the shortest path equivalent to `p` by lexical processing. -/
def pathClean (p : List Char) : List Char :=
  let rooted : Bool := p.head? = some '/'
  let body := joinSlash ((splitSlash p).foldl (cleanStep rooted) []).reverse
  if rooted then '/' :: body
  else if body = [] then ['.'] else body

/-- Go `path.Join`: empty elements are ignored, the rest is joined with slashes
and cleaned; the result is empty when every element is. -/
def pathJoin (elem : List String) : String :=
  let es := (elem.map String.data).filter (fun e => e ≠ [])
  if es = [] then "" else String.mk (pathClean (joinSlash es))

/-- Go `unicode.IsSpace`. -/
def isSpace (c : Char) : Bool :=
  let n := c.toNat
  (9 ≤ n && n ≤ 13) || n = 0x20 || n = 0x85 || n = 0xA0 || n = 0x1680 ||
    (0x2000 ≤ n && n ≤ 0x200a) || n = 0x2028 || n = 0x2029 || n = 0x202f ||
    n = 0x205f || n = 0x3000

/-- Go `strings.TrimSpace`: leading and trailing white space removed. -/
def TrimSpace (s : String) : String :=
  String.mk ((s.data.dropWhile isSpace).reverse.dropWhile isSpace).reverse

/-! ## Data model -/

/-- Modelled from the spec: the declaration of the `SysInfo` struct lives in a file
that is not among the sources.  The fields are the ones `cgroup2_linux.go` reads or
writes, with their Go zero values as defaults: the boolean capability flags, the two
derived strings `Cpus` and `Mems`, the scope path `cg2GroupPath` and the controller
set `cg2Controllers` (a Go `map[string]struct{}`: `none` is the nil map, `some ks`
a map whose keys are `ks`). -/
structure SysInfo where
  MemoryLimit : Bool := false
  SwapLimit : Bool := false
  MemoryReservation : Bool := false
  OomKillDisable : Bool := false
  MemorySwappiness : Bool := false
  KernelMemory : Bool := false
  KernelMemoryTCP : Bool := false
  CPUShares : Bool := false
  CPUCfs : Bool := false
  CPURealtime : Bool := false
  BlkioWeight : Bool := false
  BlkioWeightDevice : Bool := false
  BlkioReadBpsDevice : Bool := false
  BlkioWriteBpsDevice : Bool := false
  BlkioReadIOpsDevice : Bool := false
  BlkioWriteIOpsDevice : Bool := false
  Cpuset : Bool := false
  Cpus : String := ""
  Mems : String := ""
  PidsLimit : Bool := false
  CgroupDevicesEnabled : Bool := false
  CgroupUnified : Bool := false
  cg2GroupPath : String := ""
  cg2Controllers : Option (List String) := none
deriving DecidableEq, Repr

/-- Go `type infoCollector func(info *SysInfo) (warnings []string)`: the snapshot
after the call and the returned warnings. -/
abbrev infoCollector := SysInfo → SysInfo × List String

/-- Go `type Opt func(info *SysInfo)`. -/
abbrev Opt := SysInfo → SysInfo

/-- The error of a failed `os.Stat`; `os.IsNotExist` holds of `notExist` only. -/
inductive StatError where
  | notExist
  | other (msg : String)
deriving DecidableEq, Repr

/-- Go `os.IsNotExist(err)`; `none` is the nil error. -/
def IsNotExist : Option StatError → Bool
  | some StatError.notExist => true
  | _ => false

/-- A loaded `cgroupsV2.Manager`, as far as the code uses it: the two results of
`m.Controllers()`, the controller names and the error (`none` for nil). -/
structure Manager where
  Controllers : List String × Option String

/-- What the code reads from the host. -/
structure Env where
  /-- `cgroupsV2.LoadManager(mountpoint, group)`; the error is kept as its message. -/
  LoadManager : String → String → Except String Manager
  /-- `cgroups.ParseCgroupFile(path)`: the map from subsystem to scope, as its entries. -/
  ParseCgroupFile : String → Except String (List (String × String))
  /-- `os.Stat(path)`, its error only (`none` when the call succeeds). -/
  Stat : String → Option StatError
  /-- `ioutil.ReadFile(path)`. -/
  ReadFile : String → Except String String
  /-- `userns.RunningInUserNS()`. -/
  RunningInUserNS : Bool

/-- Go map indexing `m[k]` on a `map[string]string`: the zero value when `k` is absent. -/
def mapIndex (m : List (String × String)) (k : String) : String :=
  (m.lookup k).getD ""

/-- The comma-ok lookup `_, ok := info.cg2Controllers[name]`; a nil map has no key. -/
def hasController (info : SysInfo) (name : String) : Bool :=
  match info.cg2Controllers with
  | none => false
  | some m => m.contains name

/-! ## The swap-limit detector and the collectors -/

def getSwapLimitV2 (env : Env) : Bool :=
  match env.ParseCgroupFile "/proc/self/cgroup" with
  | .error _ => false
  | .ok groups =>
    let g := mapIndex groups ""
    if g = "" then false
    else
      let cGroupPath := pathJoin ["/sys/fs/cgroup", g, "memory.swap.max"]
      if IsNotExist (env.Stat cGroupPath) then false
      else true

def applyMemoryCgroupInfoV2 (env : Env) (info : SysInfo) : SysInfo × List String :=
  if !hasController info "memory" then
    (info, ["Unable to find memory controller"])
  else
    ({ info with
        MemoryLimit := true
        SwapLimit := getSwapLimitV2 env
        MemoryReservation := true
        OomKillDisable := false
        MemorySwappiness := false
        KernelMemory := false
        KernelMemoryTCP := false }, [])

def applyCPUCgroupInfoV2 (info : SysInfo) : SysInfo × List String :=
  if !hasController info "cpu" then
    (info, ["Unable to find cpu controller"])
  else
    ({ info with CPUShares := true, CPUCfs := true, CPURealtime := false }, [])

def applyIOCgroupInfoV2 (info : SysInfo) : SysInfo × List String :=
  if !hasController info "io" then
    (info, ["Unable to find io controller"])
  else
    ({ info with
        BlkioWeight := true
        BlkioWeightDevice := true
        BlkioReadBpsDevice := true
        BlkioWriteBpsDevice := true
        BlkioReadIOpsDevice := true
        BlkioWriteIOpsDevice := true }, [])

def applyCPUSetCgroupInfoV2 (env : Env) (info : SysInfo) : SysInfo × List String :=
  if !hasController info "cpuset" then
    (info, ["Unable to find cpuset controller"])
  else
    let info1 := { info with Cpuset := true }
    match env.ReadFile (pathJoin ["/sys/fs/cgroup", info1.cg2GroupPath, "cpuset.cpus.effective"]) with
    | .error _ => (info1, [])
    | .ok cpus =>
      let info2 := { info1 with Cpus := TrimSpace cpus }
      match env.ReadFile (pathJoin ["/sys/fs/cgroup", info2.cg2GroupPath, "cpuset.mems.effective"]) with
      | .error _ => (info2, [])
      | .ok mems => ({ info2 with Mems := TrimSpace mems }, [])

def applyPIDSCgroupInfoV2 (info : SysInfo) : SysInfo × List String :=
  if !hasController info "pids" then
    (info, ["Unable to find pids controller"])
  else
    ({ info with PidsLimit := true }, [])

def applyDevicesCgroupInfoV2 (env : Env) (info : SysInfo) : SysInfo × List String :=
  ({ info with CgroupDevicesEnabled := !env.RunningInUserNS }, [])

/-! ## The orchestrator -/

/-- The six collectors `newV2` appends to `ops` once the manager is loaded, in the
order of the source. -/
def v2Collectors (env : Env) : List infoCollector :=
  [ applyMemoryCgroupInfoV2 env,
    applyCPUCgroupInfoV2,
    applyIOCgroupInfoV2,
    applyCPUSetCgroupInfoV2 env,
    applyPIDSCgroupInfoV2,
    applyDevicesCgroupInfoV2 env ]

/-- The loop `for _, o := range ops { w := o(sysInfo); warnings = append(warnings, w...) }`,
started with the warnings gathered so far. -/
def runOps (ops : List infoCollector) (info : SysInfo) (warnings : List String) :
    SysInfo × List String :=
  ops.foldl (fun acc o => ((o acc.1).1, acc.2 ++ (o acc.1).2)) (info, warnings)

/-- Modelled from the spec: the four host collectors `newV2` runs first
(`applyNetworkingInfo`, `applyAppArmorInfo`, `applySeccompInfo`, `applyCgroupNsInfo`)
are defined in files that are not among the sources; the spec places them out of
scope ("non-cgroup host facts"), so they are parameters of the embedding. -/
structure HostCollectors where
  applyNetworkingInfo : infoCollector
  applyAppArmorInfo : infoCollector
  applySeccompInfo : infoCollector
  applyCgroupNsInfo : infoCollector

/-- The controller set built by `make(map[string]struct{})` and the loop
`for _, c := range controllers { sysInfo.cg2Controllers[c] = struct{}{} }`. -/
def controllerSet (controllers : List String) : List String :=
  controllers.foldl (fun m c => m.insert c) []

/-- What one call of `newV2` leaves behind: the returned snapshot, the local slice
`warnings` at the end of the collector loop, and the messages passed to
`logrus.Warn`, in order. -/
structure Pass where
  sysInfo : SysInfo
  warnings : List String
  logged : List String

def newV2 (env : Env) (hc : HostCollectors) (quiet : Bool) (options : List Opt) : Pass :=
  let sysInfo0 : SysInfo := { CgroupUnified := true, cg2GroupPath := "/" }
  let sysInfo1 := options.foldl (fun s o => o s) sysInfo0
  let ops : List infoCollector :=
    [hc.applyNetworkingInfo, hc.applyAppArmorInfo, hc.applySeccompInfo, hc.applyCgroupNsInfo]
  let loaded : SysInfo × List infoCollector × List String :=
    match env.LoadManager "/sys/fs/cgroup" sysInfo1.cg2GroupPath with
    | .error err => (sysInfo1, ops, [err])
    | .ok m =>
      let errLog : List String :=
        match m.Controllers.2 with
        | some err => [err]
        | none => []
      ({ sysInfo1 with cg2Controllers := some (controllerSet m.Controllers.1) },
        ops ++ v2Collectors env, errLog)
  let ran := runOps loaded.2.1 loaded.1 []
  { sysInfo := ran.1
    warnings := ran.2
    logged := loaded.2.2 ++ (if quiet then [] else ran.2) }

/-! ## Specification vocabulary -/

/-- The snapshot `newV2` builds before any option or collector runs, placed at scope
path `p` with the controller set `S`: every flag false, both derived strings empty. -/
def defaultSnapshot (p : String) (S : Option (List String)) : SysInfo :=
  { CgroupUnified := true, cg2GroupPath := p, cg2Controllers := S }

/-- The snapshot `newV2` holds after the options were applied. -/
def optionsApplied (options : List Opt) : SysInfo :=
  options.foldl (fun s o => o s) { CgroupUnified := true, cg2GroupPath := "/" }

/-- The four host collectors, in the order `newV2` lists them. -/
def hostOps (hc : HostCollectors) : List infoCollector :=
  [hc.applyNetworkingInfo, hc.applyAppArmorInfo, hc.applySeccompInfo, hc.applyCgroupNsInfo]

/-- A collector that leaves the controller set as it found it. -/
def KeepsControllers (c : infoCollector) : Prop :=
  ∀ s : SysInfo, (c s).1.cg2Controllers = s.cg2Controllers

/-- None of the four host collectors writes the controller set. -/
def HostCollectors.KeepControllers (hc : HostCollectors) : Prop :=
  ∀ c ∈ hostOps hc, KeepsControllers c

/-- The warning a subsystem collector returns for an absent controller. -/
def unableToFind (name : String) : String :=
  "Unable to find " ++ name ++ " controller"

/-- The subsystems with a controller check, in pipeline order. -/
def subsystems : List String := ["memory", "cpu", "io", "cpuset", "pids"]

/-- One warning per subsystem whose controller `present` rejects, in pipeline order. -/
def absentWarnings (present : String → Bool) : List String :=
  (subsystems.filter (fun n => !present n)).map unableToFind

/-- The snapshot `newV2` hands to the collectors once the manager is loaded and
`m.Controllers()` returned the names `cs`. -/
def loadedSnapshot (options : List Opt) (cs : List String) : SysInfo :=
  { optionsApplied options with cg2Controllers := some (controllerSet cs) }

/-- Every flag and derived string a collector can set is backed: by the membership
of its controller in `S` or, for the devices flag, by the process being outside a
user namespace. -/
def Backed (env : Env) (S : List String) (info : SysInfo) : Prop :=
  (info.MemoryLimit = true ∨ info.SwapLimit = true ∨ info.MemoryReservation = true →
      "memory" ∈ S) ∧
  (info.CPUShares = true ∨ info.CPUCfs = true → "cpu" ∈ S) ∧
  (info.BlkioWeight = true ∨ info.BlkioWeightDevice = true ∨ info.BlkioReadBpsDevice = true ∨
      info.BlkioWriteBpsDevice = true ∨ info.BlkioReadIOpsDevice = true ∨
      info.BlkioWriteIOpsDevice = true → "io" ∈ S) ∧
  (info.Cpuset = true ∨ info.Cpus ≠ "" ∨ info.Mems ≠ "" → "cpuset" ∈ S) ∧
  (info.PidsLimit = true → "pids" ∈ S) ∧
  (info.CgroupDevicesEnabled = true → env.RunningInUserNS = false)

/-- The five flags of the v1 hierarchy that v2 never reports are all false. -/
def LegacyOff (info : SysInfo) : Prop :=
  info.OomKillDisable = false ∧ info.MemorySwappiness = false ∧ info.KernelMemory = false ∧
    info.KernelMemoryTCP = false ∧ info.CPURealtime = false

/-- The messages `newV2` logs while loading, before any collector runs: the error
of `LoadManager`, or else the error of `m.Controllers()`, if there is one. -/
def loadLog (env : Env) (options : List Opt) : List String :=
  match env.LoadManager "/sys/fs/cgroup" (optionsApplied options).cg2GroupPath with
  | .error err => [err]
  | .ok m =>
    match m.Controllers.2 with
    | some err => [err]
    | none => []

/-! ## Concrete hosts -/

/-- Host collectors that change nothing and warn about nothing. -/
def silentHost : HostCollectors where
  applyNetworkingInfo := fun s => (s, [])
  applyAppArmorInfo := fun s => (s, [])
  applySeccompInfo := fun s => (s, [])
  applyCgroupNsInfo := fun s => (s, [])

/-- A host whose root scope has the memory, cpu and pids controllers; the process
sits in `/user.slice`, where `memory.swap.max` exists, and outside a user namespace. -/
def hostMemCpuPids : Env where
  LoadManager := fun _ _ => .ok { Controllers := (["memory", "cpu", "pids"], none) }
  ParseCgroupFile := fun _ => .ok [("", "/user.slice")]
  Stat := fun p =>
    if p = "/sys/fs/cgroup/user.slice/memory.swap.max" then none else some StatError.notExist
  ReadFile := fun _ => .error "no such file or directory"
  RunningInUserNS := false

/-- A host on which the cgroup v2 manager cannot be loaded. -/
def hostNoManager : Env where
  LoadManager := fun _ _ => .error "cgroups: invalid group path"
  ParseCgroupFile := fun _ => .error "no such file or directory"
  Stat := fun _ => some StatError.notExist
  ReadFile := fun _ => .error "no such file or directory"
  RunningInUserNS := false

/-- A host on which the manager loads but `cgroup.controllers` cannot be read. -/
def hostNoControllers : Env where
  LoadManager := fun _ _ =>
    .ok { Controllers := ([], some "open /sys/fs/cgroup/cgroup.controllers: permission denied") }
  ParseCgroupFile := fun _ => .error "no such file or directory"
  Stat := fun _ => some StatError.notExist
  ReadFile := fun _ => .error "no such file or directory"
  RunningInUserNS := false

/-- A host on which the process sits in `/user.slice` and `os.Stat` on its
`memory.swap.max` fails with an error other than "does not exist". -/
def hostStatDenied : Env where
  LoadManager := fun _ _ => .ok { Controllers := (["memory"], none) }
  ParseCgroupFile := fun _ => .ok [("", "/user.slice")]
  Stat := fun p =>
    if p = "/sys/fs/cgroup/user.slice/memory.swap.max" then
      some (StatError.other "permission denied")
    else some StatError.notExist
  ReadFile := fun _ => .error "no such file or directory"
  RunningInUserNS := false

/-- A host with the cpuset controller on which `cpuset.cpus.effective` cannot be
read while `cpuset.mems.effective` holds `0`. -/
def hostCpusUnreadable : Env where
  LoadManager := fun _ _ => .ok { Controllers := (["cpuset"], none) }
  ParseCgroupFile := fun _ => .ok [("", "/user.slice")]
  Stat := fun _ => some StatError.notExist
  ReadFile := fun p =>
    if p = "/sys/fs/cgroup/cpuset.mems.effective" then .ok "0\n"
    else .error "permission denied"
  RunningInUserNS := false

/-- A snapshot with flags and strings left over from elsewhere: every subsystem
collector has something it could overwrite. -/
def usedSnapshot (S : Option (List String)) : SysInfo :=
  { MemoryLimit := true, SwapLimit := true, OomKillDisable := true, KernelMemory := true,
    CPUCfs := true, CPURealtime := true, BlkioWeightDevice := true, Cpuset := true,
    Cpus := "0-7", Mems := "0-1", PidsLimit := true, CgroupDevicesEnabled := true,
    CgroupUnified := true, cg2GroupPath := "/docker", cg2Controllers := S }

/-! ## Basic facts about the collectors -/

theorem mem_controllerSet_aux (cs : List String) (acc : List String) (c : String) :
    c ∈ cs.foldl (fun m x => m.insert x) acc ↔ c ∈ acc ∨ c ∈ cs := by
  induction cs generalizing acc with
  | nil => simp
  | cons x xs ih =>
    simp only [List.foldl_cons, ih, List.mem_insert_iff, List.mem_cons]
    tauto

theorem mem_controllerSet (cs : List String) (c : String) :
    c ∈ controllerSet cs ↔ c ∈ cs := by
  simp [controllerSet, mem_controllerSet_aux]

theorem hasController_some (info : SysInfo) (S : List String) (n : String)
    (h : info.cg2Controllers = some S) : hasController info n = decide (n ∈ S) := by
  simp [hasController, h]

theorem hasController_of_not_mem (info : SysInfo) (S : List String) (n : String)
    (h : info.cg2Controllers = some S) (hn : n ∉ S) : hasController info n = false := by
  rw [hasController_some info S n h]; simpa using hn

theorem hasController_of_mem (info : SysInfo) (S : List String) (n : String)
    (h : info.cg2Controllers = some S) (hn : n ∈ S) : hasController info n = true := by
  rw [hasController_some info S n h]; simpa using hn

theorem applyMemory_controllers (env : Env) (info : SysInfo) :
    (applyMemoryCgroupInfoV2 env info).1.cg2Controllers = info.cg2Controllers := by
  unfold applyMemoryCgroupInfoV2; split <;> rfl

theorem applyCPU_controllers (info : SysInfo) :
    (applyCPUCgroupInfoV2 info).1.cg2Controllers = info.cg2Controllers := by
  unfold applyCPUCgroupInfoV2; split <;> rfl

theorem applyIO_controllers (info : SysInfo) :
    (applyIOCgroupInfoV2 info).1.cg2Controllers = info.cg2Controllers := by
  unfold applyIOCgroupInfoV2; split <;> rfl

theorem applyCPUSet_controllers (env : Env) (info : SysInfo) :
    (applyCPUSetCgroupInfoV2 env info).1.cg2Controllers = info.cg2Controllers := by
  unfold applyCPUSetCgroupInfoV2
  split
  · rfl
  · dsimp only
    split
    · rfl
    · split <;> rfl

theorem applyPIDS_controllers (info : SysInfo) :
    (applyPIDSCgroupInfoV2 info).1.cg2Controllers = info.cg2Controllers := by
  unfold applyPIDSCgroupInfoV2; split <;> rfl

theorem applyDevices_controllers (env : Env) (info : SysInfo) :
    (applyDevicesCgroupInfoV2 env info).1.cg2Controllers = info.cg2Controllers := rfl

theorem hasController_congr {a b : SysInfo} (h : a.cg2Controllers = b.cg2Controllers)
    (n : String) : hasController a n = hasController b n := by
  simp [hasController, h]

theorem applyMemory_warnings (env : Env) (info : SysInfo) :
    (applyMemoryCgroupInfoV2 env info).2 =
      if hasController info "memory" then [] else [unableToFind "memory"] := by
  unfold applyMemoryCgroupInfoV2
  cases hasController info "memory" <;> simp [unableToFind]

theorem applyCPU_warnings (info : SysInfo) :
    (applyCPUCgroupInfoV2 info).2 =
      if hasController info "cpu" then [] else [unableToFind "cpu"] := by
  unfold applyCPUCgroupInfoV2
  cases hasController info "cpu" <;> simp [unableToFind]

theorem applyIO_warnings (info : SysInfo) :
    (applyIOCgroupInfoV2 info).2 =
      if hasController info "io" then [] else [unableToFind "io"] := by
  unfold applyIOCgroupInfoV2
  cases hasController info "io" <;> simp [unableToFind]

theorem applyCPUSet_warnings (env : Env) (info : SysInfo) :
    (applyCPUSetCgroupInfoV2 env info).2 =
      if hasController info "cpuset" then [] else [unableToFind "cpuset"] := by
  unfold applyCPUSetCgroupInfoV2
  cases hasController info "cpuset"
  · simp; decide
  · simp only [Bool.not_true, Bool.false_eq_true, if_false, if_true]
    split
    · rfl
    · split <;> rfl

theorem applyPIDS_warnings (info : SysInfo) :
    (applyPIDSCgroupInfoV2 info).2 =
      if hasController info "pids" then [] else [unableToFind "pids"] := by
  unfold applyPIDSCgroupInfoV2
  cases hasController info "pids" <;> simp [unableToFind]

theorem hasController_applyMemory (env : Env) (info : SysInfo) (n : String) :
    hasController (applyMemoryCgroupInfoV2 env info).1 n = hasController info n :=
  hasController_congr (applyMemory_controllers env info) n

theorem hasController_applyCPU (info : SysInfo) (n : String) :
    hasController (applyCPUCgroupInfoV2 info).1 n = hasController info n :=
  hasController_congr (applyCPU_controllers info) n

theorem hasController_applyIO (info : SysInfo) (n : String) :
    hasController (applyIOCgroupInfoV2 info).1 n = hasController info n :=
  hasController_congr (applyIO_controllers info) n

theorem hasController_applyCPUSet (env : Env) (info : SysInfo) (n : String) :
    hasController (applyCPUSetCgroupInfoV2 env info).1 n = hasController info n :=
  hasController_congr (applyCPUSet_controllers env info) n

theorem hasController_applyPIDS (info : SysInfo) (n : String) :
    hasController (applyPIDSCgroupInfoV2 info).1 n = hasController info n :=
  hasController_congr (applyPIDS_controllers info) n

/-- The loop over the six collectors, unrolled. -/
theorem runOps_v2Collectors (env : Env) (info : SysInfo) (w : List String) :
    runOps (v2Collectors env) info w =
      let m := applyMemoryCgroupInfoV2 env info
      let c := applyCPUCgroupInfoV2 m.1
      let i := applyIOCgroupInfoV2 c.1
      let s := applyCPUSetCgroupInfoV2 env i.1
      let p := applyPIDSCgroupInfoV2 s.1
      let d := applyDevicesCgroupInfoV2 env p.1
      (d.1, w ++ m.2 ++ c.2 ++ i.2 ++ s.2 ++ p.2 ++ d.2) := rfl

theorem runOps_append (xs ys : List infoCollector) (info : SysInfo) (w : List String) :
    runOps (xs ++ ys) info w = runOps ys (runOps xs info w).1 (runOps xs info w).2 := by
  simp [runOps, List.foldl_append]

/-- The warnings of the six collectors: one per absent subsystem, in pipeline order,
after the warnings already gathered. -/
theorem v2Collectors_warnings (env : Env) (info : SysInfo) (w : List String) :
    (runOps (v2Collectors env) info w).2 = w ++ absentWarnings (hasController info) := by
  rw [runOps_v2Collectors]
  simp only [applyMemory_warnings, applyCPU_warnings, applyIO_warnings, applyCPUSet_warnings,
    applyPIDS_warnings, hasController_applyMemory, hasController_applyCPU,
    hasController_applyIO, hasController_applyCPUSet, hasController_applyPIDS]
  simp only [applyDevicesCgroupInfoV2, List.append_nil, List.append_assoc, absentWarnings,
    subsystems]
  cases h1 : hasController info "memory" <;> cases h2 : hasController info "cpu" <;>
    cases h3 : hasController info "io" <;> cases h4 : hasController info "cpuset" <;>
    cases h5 : hasController info "pids" <;> simp [List.filter, h1, h2, h3, h4, h5]

/-- Host collectors that keep the controller set keep it over the whole loop. -/
theorem runOps_keepsControllers (ops : List infoCollector)
    (h : ∀ c ∈ ops, KeepsControllers c) (info : SysInfo) (w : List String) :
    (runOps ops info w).1.cg2Controllers = info.cg2Controllers := by
  induction ops generalizing info w with
  | nil => rfl
  | cons o os ih =>
    have ho : KeepsControllers o := h o (List.mem_cons_self _ _)
    have hos : ∀ c ∈ os, KeepsControllers c := fun c hc => h c (List.mem_cons_of_mem _ hc)
    have step : runOps (o :: os) info w = runOps os (o info).1 (w ++ (o info).2) := rfl
    rw [step, ih hos, ho info]

theorem applyMemory_MemoryLimit (env : Env) (info : SysInfo) :
    (applyMemoryCgroupInfoV2 env info).1.MemoryLimit =
      (hasController info "memory" || info.MemoryLimit) := by
  unfold applyMemoryCgroupInfoV2
  cases h : hasController info "memory" <;> simp

theorem applyCPU_CPUShares (info : SysInfo) :
    (applyCPUCgroupInfoV2 info).1.CPUShares = (hasController info "cpu" || info.CPUShares) := by
  unfold applyCPUCgroupInfoV2
  cases h : hasController info "cpu" <;> simp

theorem applyIO_BlkioWeight (info : SysInfo) :
    (applyIOCgroupInfoV2 info).1.BlkioWeight =
      (hasController info "io" || info.BlkioWeight) := by
  unfold applyIOCgroupInfoV2
  cases h : hasController info "io" <;> simp

theorem applyCPUSet_Cpuset (env : Env) (info : SysInfo) :
    (applyCPUSetCgroupInfoV2 env info).1.Cpuset =
      (hasController info "cpuset" || info.Cpuset) := by
  unfold applyCPUSetCgroupInfoV2
  cases h : hasController info "cpuset"
  · simp
  · simp only [Bool.not_true, Bool.false_eq_true, if_false, Bool.true_or]
    split
    · rfl
    · split <;> rfl

theorem applyPIDS_PidsLimit (info : SysInfo) :
    (applyPIDSCgroupInfoV2 info).1.PidsLimit =
      (hasController info "pids" || info.PidsLimit) := by
  unfold applyPIDSCgroupInfoV2
  cases h : hasController info "pids" <;> simp

/-- A property every collector of a list preserves holds after the loop. -/
theorem runOps_invariant (P : SysInfo → Prop) (ops : List infoCollector)
    (h : ∀ o ∈ ops, ∀ s, P s → P (o s).1) (info : SysInfo) (w : List String)
    (h0 : P info) : P (runOps ops info w).1 := by
  induction ops generalizing info w with
  | nil => exact h0
  | cons o os ih =>
    have step : runOps (o :: os) info w = runOps os (o info).1 (w ++ (o info).2) := rfl
    rw [step]
    exact ih (fun c hc => h c (List.mem_cons_of_mem _ hc)) _ _
      (h o (List.mem_cons_self _ _) info h0)

theorem applyMemory_backed (env : Env) (S : List String) (info : SysInfo)
    (h : info.cg2Controllers = some S ∧ Backed env S info) :
    (applyMemoryCgroupInfoV2 env info).1.cg2Controllers = some S ∧
      Backed env S (applyMemoryCgroupInfoV2 env info).1 := by
  obtain ⟨hS, hb⟩ := h
  refine ⟨(applyMemory_controllers env info).trans hS, ?_⟩
  unfold applyMemoryCgroupInfoV2
  by_cases hm : "memory" ∈ S
  · rw [hasController_of_mem info S _ hS hm]
    simp only [Backed] at hb ⊢
    simp only [Bool.not_true, Bool.false_eq_true, if_false]
    exact ⟨fun _ => hm, hb.2⟩
  · rw [hasController_of_not_mem info S _ hS hm]
    exact hb

theorem applyCPU_backed (env : Env) (S : List String) (info : SysInfo)
    (h : info.cg2Controllers = some S ∧ Backed env S info) :
    (applyCPUCgroupInfoV2 info).1.cg2Controllers = some S ∧
      Backed env S (applyCPUCgroupInfoV2 info).1 := by
  obtain ⟨hS, hb⟩ := h
  refine ⟨(applyCPU_controllers info).trans hS, ?_⟩
  unfold applyCPUCgroupInfoV2
  by_cases hm : "cpu" ∈ S
  · rw [hasController_of_mem info S _ hS hm]
    simp only [Backed] at hb ⊢
    simp only [Bool.not_true, Bool.false_eq_true, if_false]
    exact ⟨hb.1, fun _ => hm, hb.2.2⟩
  · rw [hasController_of_not_mem info S _ hS hm]
    exact hb

theorem applyIO_backed (env : Env) (S : List String) (info : SysInfo)
    (h : info.cg2Controllers = some S ∧ Backed env S info) :
    (applyIOCgroupInfoV2 info).1.cg2Controllers = some S ∧
      Backed env S (applyIOCgroupInfoV2 info).1 := by
  obtain ⟨hS, hb⟩ := h
  refine ⟨(applyIO_controllers info).trans hS, ?_⟩
  unfold applyIOCgroupInfoV2
  by_cases hm : "io" ∈ S
  · rw [hasController_of_mem info S _ hS hm]
    simp only [Backed] at hb ⊢
    simp only [Bool.not_true, Bool.false_eq_true, if_false]
    exact ⟨hb.1, hb.2.1, fun _ => hm, hb.2.2.2⟩
  · rw [hasController_of_not_mem info S _ hS hm]
    exact hb

theorem applyCPUSet_backed (env : Env) (S : List String) (info : SysInfo)
    (h : info.cg2Controllers = some S ∧ Backed env S info) :
    (applyCPUSetCgroupInfoV2 env info).1.cg2Controllers = some S ∧
      Backed env S (applyCPUSetCgroupInfoV2 env info).1 := by
  obtain ⟨hS, hb⟩ := h
  refine ⟨(applyCPUSet_controllers env info).trans hS, ?_⟩
  unfold applyCPUSetCgroupInfoV2
  by_cases hm : "cpuset" ∈ S
  · rw [hasController_of_mem info S _ hS hm]
    simp only [Backed] at hb ⊢
    simp only [Bool.not_true, Bool.false_eq_true, if_false]
    split
    · exact ⟨hb.1, hb.2.1, hb.2.2.1, fun _ => hm, hb.2.2.2.2⟩
    · split
      · exact ⟨hb.1, hb.2.1, hb.2.2.1, fun _ => hm, hb.2.2.2.2⟩
      · exact ⟨hb.1, hb.2.1, hb.2.2.1, fun _ => hm, hb.2.2.2.2⟩
  · rw [hasController_of_not_mem info S _ hS hm]
    exact hb

theorem applyPIDS_backed (env : Env) (S : List String) (info : SysInfo)
    (h : info.cg2Controllers = some S ∧ Backed env S info) :
    (applyPIDSCgroupInfoV2 info).1.cg2Controllers = some S ∧
      Backed env S (applyPIDSCgroupInfoV2 info).1 := by
  obtain ⟨hS, hb⟩ := h
  refine ⟨(applyPIDS_controllers info).trans hS, ?_⟩
  unfold applyPIDSCgroupInfoV2
  by_cases hm : "pids" ∈ S
  · rw [hasController_of_mem info S _ hS hm]
    simp only [Backed] at hb ⊢
    simp only [Bool.not_true, Bool.false_eq_true, if_false]
    exact ⟨hb.1, hb.2.1, hb.2.2.1, hb.2.2.2.1, fun _ => hm, hb.2.2.2.2.2⟩
  · rw [hasController_of_not_mem info S _ hS hm]
    exact hb

theorem applyDevices_backed (env : Env) (S : List String) (info : SysInfo)
    (h : info.cg2Controllers = some S ∧ Backed env S info) :
    (applyDevicesCgroupInfoV2 env info).1.cg2Controllers = some S ∧
      Backed env S (applyDevicesCgroupInfoV2 env info).1 := by
  obtain ⟨hS, hb⟩ := h
  refine ⟨hS, ?_⟩
  simp only [Backed, applyDevicesCgroupInfoV2] at hb ⊢
  refine ⟨hb.1, hb.2.1, hb.2.2.1, hb.2.2.2.1, hb.2.2.2.2.1, fun hd => ?_⟩
  simpa using hd

theorem v2Collectors_backed (env : Env) (S : List String) (info : SysInfo)
    (h : info.cg2Controllers = some S ∧ Backed env S info) :
    Backed env S (runOps (v2Collectors env) info []).1 := by
  refine (runOps_invariant (fun s => s.cg2Controllers = some S ∧ Backed env S s)
    (v2Collectors env) ?_ info [] h).2
  intro o ho s hs
  simp only [v2Collectors, List.mem_cons, List.mem_singleton, List.not_mem_nil,
    or_false] at ho
  rcases ho with e | e | e | e | e | e <;> subst e
  · exact applyMemory_backed env S s hs
  · exact applyCPU_backed env S s hs
  · exact applyIO_backed env S s hs
  · exact applyCPUSet_backed env S s hs
  · exact applyPIDS_backed env S s hs
  · exact applyDevices_backed env S s hs

theorem applyMemory_legacyOff (env : Env) (info : SysInfo) (h : LegacyOff info) :
    LegacyOff (applyMemoryCgroupInfoV2 env info).1 := by
  unfold applyMemoryCgroupInfoV2
  split
  · exact h
  · exact ⟨rfl, rfl, rfl, rfl, h.2.2.2.2⟩

theorem applyCPU_legacyOff (info : SysInfo) (h : LegacyOff info) :
    LegacyOff (applyCPUCgroupInfoV2 info).1 := by
  unfold applyCPUCgroupInfoV2
  split
  · exact h
  · exact ⟨h.1, h.2.1, h.2.2.1, h.2.2.2.1, rfl⟩

theorem applyIO_legacyOff (info : SysInfo) (h : LegacyOff info) :
    LegacyOff (applyIOCgroupInfoV2 info).1 := by
  unfold applyIOCgroupInfoV2
  split <;> exact h

theorem applyCPUSet_legacyOff (env : Env) (info : SysInfo) (h : LegacyOff info) :
    LegacyOff (applyCPUSetCgroupInfoV2 env info).1 := by
  unfold applyCPUSetCgroupInfoV2
  split
  · exact h
  · dsimp only
    split
    · exact h
    · split <;> exact h

theorem applyPIDS_legacyOff (info : SysInfo) (h : LegacyOff info) :
    LegacyOff (applyPIDSCgroupInfoV2 info).1 := by
  unfold applyPIDSCgroupInfoV2
  split <;> exact h

theorem applyDevices_legacyOff (env : Env) (info : SysInfo) (h : LegacyOff info) :
    LegacyOff (applyDevicesCgroupInfoV2 env info).1 := h

theorem v2Collectors_legacyOff (env : Env) :
    ∀ o ∈ v2Collectors env, ∀ s, LegacyOff s → LegacyOff (o s).1 := by
  intro o ho s hs
  simp only [v2Collectors, List.mem_cons, List.mem_singleton, List.not_mem_nil,
    or_false] at ho
  rcases ho with e | e | e | e | e | e <;> subst e
  · exact applyMemory_legacyOff env s hs
  · exact applyCPU_legacyOff s hs
  · exact applyIO_legacyOff s hs
  · exact applyCPUSet_legacyOff env s hs
  · exact applyPIDS_legacyOff s hs
  · exact applyDevices_legacyOff env s hs

/-- The snapshot a pass returns when the manager cannot be loaded: only the host
collectors ran, on the snapshot the options left. -/
theorem newV2_sysInfo_failed (env : Env) (hc : HostCollectors) (quiet : Bool)
    (options : List Opt) (err : String)
    (hload : env.LoadManager "/sys/fs/cgroup" (optionsApplied options).cg2GroupPath
      = .error err) :
    (newV2 env hc quiet options).sysInfo = (runOps (hostOps hc) (optionsApplied options) []).1 := by
  simp only [newV2, optionsApplied] at hload ⊢
  rw [hload]
  rfl

theorem v2Collectors_keep (env : Env) : ∀ c ∈ v2Collectors env, KeepsControllers c := by
  intro c hc s
  simp only [v2Collectors, List.mem_cons, List.mem_singleton, List.not_mem_nil,
    or_false] at hc
  rcases hc with h | h | h | h | h | h <;> subst h
  · exact applyMemory_controllers env s
  · exact applyCPU_controllers s
  · exact applyIO_controllers s
  · exact applyCPUSet_controllers env s
  · exact applyPIDS_controllers s
  · exact applyDevices_controllers env s

/-- The snapshot a loaded pass returns: the collectors, host ones first, run on the
loaded snapshot. -/
theorem newV2_sysInfo_loaded (env : Env) (hc : HostCollectors) (quiet : Bool)
    (options : List Opt) (m : Manager)
    (hload : env.LoadManager "/sys/fs/cgroup" (optionsApplied options).cg2GroupPath = .ok m) :
    (newV2 env hc quiet options).sysInfo =
      (runOps (hostOps hc ++ v2Collectors env) (loadedSnapshot options m.Controllers.1) []).1 := by
  simp only [newV2, optionsApplied] at hload ⊢
  rw [hload]
  rfl

theorem newV2_controllers_loaded (env : Env) (hc : HostCollectors) (quiet : Bool)
    (options : List Opt) (m : Manager)
    (hload : env.LoadManager "/sys/fs/cgroup" (optionsApplied options).cg2GroupPath = .ok m)
    (hhost : hc.KeepControllers) :
    (newV2 env hc quiet options).sysInfo.cg2Controllers =
      some (controllerSet m.Controllers.1) := by
  rw [newV2_sysInfo_loaded env hc quiet options m hload, runOps_keepsControllers]
  · rfl
  · intro c hmem
    rcases List.mem_append.mp hmem with h | h
    · exact hhost c h
    · exact v2Collectors_keep env c h

theorem silentHost_keeps : silentHost.KeepControllers := by
  intro c hc s
  simp only [hostOps, silentHost, List.mem_cons, List.mem_singleton, List.not_mem_nil,
    or_false] at hc
  rcases hc with h | h | h | h <;> subst h <;> rfl

/-- The warnings of a pass whose manager was loaded: those of the host collectors,
run on the loaded snapshot, then one per subsystem missing from the names `cs` that
`m.Controllers()` returned. -/
theorem newV2_warnings_loaded (env : Env) (hc : HostCollectors) (quiet : Bool)
    (options : List Opt) (m : Manager)
    (hload : env.LoadManager "/sys/fs/cgroup" (optionsApplied options).cg2GroupPath = .ok m)
    (hhost : hc.KeepControllers) :
    (newV2 env hc quiet options).warnings =
      (runOps (hostOps hc) (loadedSnapshot options m.Controllers.1) []).2 ++
        absentWarnings (fun n => decide (n ∈ m.Controllers.1)) := by
  have hnew : (newV2 env hc quiet options).warnings =
      (runOps (hostOps hc ++ v2Collectors env) (loadedSnapshot options m.Controllers.1) []).2 := by
    simp only [newV2, optionsApplied] at hload ⊢
    rw [hload]
    rfl
  rw [hnew, runOps_append, v2Collectors_warnings]
  congr 2
  funext n
  rw [hasController_congr (runOps_keepsControllers (hostOps hc) hhost _ _) n,
    hasController_some _ (controllerSet m.Controllers.1) n rfl]
  simp [mem_controllerSet]

/-! ## Commutation and idempotence of the collectors -/

theorem applyMemory_applyCPU_comm (env : Env) (info : SysInfo) :
    (applyCPUCgroupInfoV2 (applyMemoryCgroupInfoV2 env info).1).1 =
      (applyMemoryCgroupInfoV2 env (applyCPUCgroupInfoV2 info).1).1 := by
  rcases info with ⟨⟩
  rename_i p S
  rcases S with _ | S
  · rfl
  · by_cases hMemory : "memory" ∈ S <;>
      by_cases hCPU : "cpu" ∈ S <;>
      simp [applyMemoryCgroupInfoV2, applyCPUCgroupInfoV2, hasController, hMemory, hCPU]

theorem applyMemory_applyIO_comm (env : Env) (info : SysInfo) :
    (applyIOCgroupInfoV2 (applyMemoryCgroupInfoV2 env info).1).1 =
      (applyMemoryCgroupInfoV2 env (applyIOCgroupInfoV2 info).1).1 := by
  rcases info with ⟨⟩
  rename_i p S
  rcases S with _ | S
  · rfl
  · by_cases hMemory : "memory" ∈ S <;>
      by_cases hIO : "io" ∈ S <;>
      simp [applyMemoryCgroupInfoV2, applyIOCgroupInfoV2, hasController, hMemory, hIO]

theorem applyMemory_applyCPUSet_comm (env : Env) (info : SysInfo) :
    (applyCPUSetCgroupInfoV2 env (applyMemoryCgroupInfoV2 env info).1).1 =
      (applyMemoryCgroupInfoV2 env (applyCPUSetCgroupInfoV2 env info).1).1 := by
  rcases info with ⟨⟩
  rename_i p S
  rcases S with _ | S
  · rfl
  · by_cases hMemory : "memory" ∈ S <;>
      by_cases hCPUSet : "cpuset" ∈ S <;>
      cases hr1 : env.ReadFile (pathJoin ["/sys/fs/cgroup", p, "cpuset.cpus.effective"]) <;>
      cases hr2 : env.ReadFile (pathJoin ["/sys/fs/cgroup", p, "cpuset.mems.effective"]) <;>
      simp [applyMemoryCgroupInfoV2, applyCPUSetCgroupInfoV2, hasController, hMemory, hCPUSet, hr1, hr2]

theorem applyMemory_applyPIDS_comm (env : Env) (info : SysInfo) :
    (applyPIDSCgroupInfoV2 (applyMemoryCgroupInfoV2 env info).1).1 =
      (applyMemoryCgroupInfoV2 env (applyPIDSCgroupInfoV2 info).1).1 := by
  rcases info with ⟨⟩
  rename_i p S
  rcases S with _ | S
  · rfl
  · by_cases hMemory : "memory" ∈ S <;>
      by_cases hPIDS : "pids" ∈ S <;>
      simp [applyMemoryCgroupInfoV2, applyPIDSCgroupInfoV2, hasController, hMemory, hPIDS]

theorem applyMemory_applyDevices_comm (env : Env) (info : SysInfo) :
    (applyDevicesCgroupInfoV2 env (applyMemoryCgroupInfoV2 env info).1).1 =
      (applyMemoryCgroupInfoV2 env (applyDevicesCgroupInfoV2 env info).1).1 := by
  rcases info with ⟨⟩
  rename_i p S
  rcases S with _ | S
  · rfl
  · by_cases hMemory : "memory" ∈ S <;>
      simp [applyMemoryCgroupInfoV2, applyDevicesCgroupInfoV2, hasController, hMemory]

theorem applyCPU_applyIO_comm (info : SysInfo) :
    (applyIOCgroupInfoV2 (applyCPUCgroupInfoV2 info).1).1 =
      (applyCPUCgroupInfoV2 (applyIOCgroupInfoV2 info).1).1 := by
  rcases info with ⟨⟩
  rename_i p S
  rcases S with _ | S
  · rfl
  · by_cases hCPU : "cpu" ∈ S <;>
      by_cases hIO : "io" ∈ S <;>
      simp [applyCPUCgroupInfoV2, applyIOCgroupInfoV2, hasController, hCPU, hIO]

theorem applyCPU_applyCPUSet_comm (env : Env) (info : SysInfo) :
    (applyCPUSetCgroupInfoV2 env (applyCPUCgroupInfoV2 info).1).1 =
      (applyCPUCgroupInfoV2 (applyCPUSetCgroupInfoV2 env info).1).1 := by
  rcases info with ⟨⟩
  rename_i p S
  rcases S with _ | S
  · rfl
  · by_cases hCPU : "cpu" ∈ S <;>
      by_cases hCPUSet : "cpuset" ∈ S <;>
      cases hr1 : env.ReadFile (pathJoin ["/sys/fs/cgroup", p, "cpuset.cpus.effective"]) <;>
      cases hr2 : env.ReadFile (pathJoin ["/sys/fs/cgroup", p, "cpuset.mems.effective"]) <;>
      simp [applyCPUCgroupInfoV2, applyCPUSetCgroupInfoV2, hasController, hCPU, hCPUSet, hr1, hr2]

theorem applyCPU_applyPIDS_comm (info : SysInfo) :
    (applyPIDSCgroupInfoV2 (applyCPUCgroupInfoV2 info).1).1 =
      (applyCPUCgroupInfoV2 (applyPIDSCgroupInfoV2 info).1).1 := by
  rcases info with ⟨⟩
  rename_i p S
  rcases S with _ | S
  · rfl
  · by_cases hCPU : "cpu" ∈ S <;>
      by_cases hPIDS : "pids" ∈ S <;>
      simp [applyCPUCgroupInfoV2, applyPIDSCgroupInfoV2, hasController, hCPU, hPIDS]

theorem applyCPU_applyDevices_comm (env : Env) (info : SysInfo) :
    (applyDevicesCgroupInfoV2 env (applyCPUCgroupInfoV2 info).1).1 =
      (applyCPUCgroupInfoV2 (applyDevicesCgroupInfoV2 env info).1).1 := by
  rcases info with ⟨⟩
  rename_i p S
  rcases S with _ | S
  · rfl
  · by_cases hCPU : "cpu" ∈ S <;>
      simp [applyCPUCgroupInfoV2, applyDevicesCgroupInfoV2, hasController, hCPU]

theorem applyIO_applyCPUSet_comm (env : Env) (info : SysInfo) :
    (applyCPUSetCgroupInfoV2 env (applyIOCgroupInfoV2 info).1).1 =
      (applyIOCgroupInfoV2 (applyCPUSetCgroupInfoV2 env info).1).1 := by
  rcases info with ⟨⟩
  rename_i p S
  rcases S with _ | S
  · rfl
  · by_cases hIO : "io" ∈ S <;>
      by_cases hCPUSet : "cpuset" ∈ S <;>
      cases hr1 : env.ReadFile (pathJoin ["/sys/fs/cgroup", p, "cpuset.cpus.effective"]) <;>
      cases hr2 : env.ReadFile (pathJoin ["/sys/fs/cgroup", p, "cpuset.mems.effective"]) <;>
      simp [applyIOCgroupInfoV2, applyCPUSetCgroupInfoV2, hasController, hIO, hCPUSet, hr1, hr2]

theorem applyIO_applyPIDS_comm (info : SysInfo) :
    (applyPIDSCgroupInfoV2 (applyIOCgroupInfoV2 info).1).1 =
      (applyIOCgroupInfoV2 (applyPIDSCgroupInfoV2 info).1).1 := by
  rcases info with ⟨⟩
  rename_i p S
  rcases S with _ | S
  · rfl
  · by_cases hIO : "io" ∈ S <;>
      by_cases hPIDS : "pids" ∈ S <;>
      simp [applyIOCgroupInfoV2, applyPIDSCgroupInfoV2, hasController, hIO, hPIDS]

theorem applyIO_applyDevices_comm (env : Env) (info : SysInfo) :
    (applyDevicesCgroupInfoV2 env (applyIOCgroupInfoV2 info).1).1 =
      (applyIOCgroupInfoV2 (applyDevicesCgroupInfoV2 env info).1).1 := by
  rcases info with ⟨⟩
  rename_i p S
  rcases S with _ | S
  · rfl
  · by_cases hIO : "io" ∈ S <;>
      simp [applyIOCgroupInfoV2, applyDevicesCgroupInfoV2, hasController, hIO]

theorem applyCPUSet_applyPIDS_comm (env : Env) (info : SysInfo) :
    (applyPIDSCgroupInfoV2 (applyCPUSetCgroupInfoV2 env info).1).1 =
      (applyCPUSetCgroupInfoV2 env (applyPIDSCgroupInfoV2 info).1).1 := by
  rcases info with ⟨⟩
  rename_i p S
  rcases S with _ | S
  · rfl
  · by_cases hCPUSet : "cpuset" ∈ S <;>
      by_cases hPIDS : "pids" ∈ S <;>
      cases hr1 : env.ReadFile (pathJoin ["/sys/fs/cgroup", p, "cpuset.cpus.effective"]) <;>
      cases hr2 : env.ReadFile (pathJoin ["/sys/fs/cgroup", p, "cpuset.mems.effective"]) <;>
      simp [applyCPUSetCgroupInfoV2, applyPIDSCgroupInfoV2, hasController, hCPUSet, hPIDS, hr1, hr2]

theorem applyCPUSet_applyDevices_comm (env : Env) (info : SysInfo) :
    (applyDevicesCgroupInfoV2 env (applyCPUSetCgroupInfoV2 env info).1).1 =
      (applyCPUSetCgroupInfoV2 env (applyDevicesCgroupInfoV2 env info).1).1 := by
  rcases info with ⟨⟩
  rename_i p S
  rcases S with _ | S
  · rfl
  · by_cases hCPUSet : "cpuset" ∈ S <;>
      cases hr1 : env.ReadFile (pathJoin ["/sys/fs/cgroup", p, "cpuset.cpus.effective"]) <;>
      cases hr2 : env.ReadFile (pathJoin ["/sys/fs/cgroup", p, "cpuset.mems.effective"]) <;>
      simp [applyCPUSetCgroupInfoV2, applyDevicesCgroupInfoV2, hasController, hCPUSet, hr1, hr2]

theorem applyPIDS_applyDevices_comm (env : Env) (info : SysInfo) :
    (applyDevicesCgroupInfoV2 env (applyPIDSCgroupInfoV2 info).1).1 =
      (applyPIDSCgroupInfoV2 (applyDevicesCgroupInfoV2 env info).1).1 := by
  rcases info with ⟨⟩
  rename_i p S
  rcases S with _ | S
  · rfl
  · by_cases hPIDS : "pids" ∈ S <;>
      simp [applyPIDSCgroupInfoV2, applyDevicesCgroupInfoV2, hasController, hPIDS]

theorem applyMemory_idem (env : Env) (info : SysInfo) :
    (applyMemoryCgroupInfoV2 env (applyMemoryCgroupInfoV2 env info).1).1 = (applyMemoryCgroupInfoV2 env info).1 := by
  rcases info with ⟨⟩
  rename_i p S
  rcases S with _ | S
  · rfl
  · by_cases hMemory : "memory" ∈ S <;>
      simp [applyMemoryCgroupInfoV2, hasController, hMemory]

theorem applyCPU_idem (info : SysInfo) :
    (applyCPUCgroupInfoV2 (applyCPUCgroupInfoV2 info).1).1 = (applyCPUCgroupInfoV2 info).1 := by
  rcases info with ⟨⟩
  rename_i p S
  rcases S with _ | S
  · rfl
  · by_cases hCPU : "cpu" ∈ S <;>
      simp [applyCPUCgroupInfoV2, hasController, hCPU]

theorem applyIO_idem (info : SysInfo) :
    (applyIOCgroupInfoV2 (applyIOCgroupInfoV2 info).1).1 = (applyIOCgroupInfoV2 info).1 := by
  rcases info with ⟨⟩
  rename_i p S
  rcases S with _ | S
  · rfl
  · by_cases hIO : "io" ∈ S <;>
      simp [applyIOCgroupInfoV2, hasController, hIO]

theorem applyCPUSet_idem (env : Env) (info : SysInfo) :
    (applyCPUSetCgroupInfoV2 env (applyCPUSetCgroupInfoV2 env info).1).1 = (applyCPUSetCgroupInfoV2 env info).1 := by
  rcases info with ⟨⟩
  rename_i p S
  rcases S with _ | S
  · rfl
  · by_cases hCPUSet : "cpuset" ∈ S <;>
      cases hr1 : env.ReadFile (pathJoin ["/sys/fs/cgroup", p, "cpuset.cpus.effective"]) <;>
      cases hr2 : env.ReadFile (pathJoin ["/sys/fs/cgroup", p, "cpuset.mems.effective"]) <;>
      simp [applyCPUSetCgroupInfoV2, hasController, hCPUSet, hr1, hr2]

theorem applyPIDS_idem (info : SysInfo) :
    (applyPIDSCgroupInfoV2 (applyPIDSCgroupInfoV2 info).1).1 = (applyPIDSCgroupInfoV2 info).1 := by
  rcases info with ⟨⟩
  rename_i p S
  rcases S with _ | S
  · rfl
  · by_cases hPIDS : "pids" ∈ S <;>
      simp [applyPIDSCgroupInfoV2, hasController, hPIDS]

theorem applyDevices_idem (env : Env) (info : SysInfo) :
    (applyDevicesCgroupInfoV2 env (applyDevicesCgroupInfoV2 env info).1).1 =
      (applyDevicesCgroupInfoV2 env info).1 := rfl

/-- The snapshot a loop leaves is the fold of the collectors' snapshot parts. -/
theorem runOps_fst (ops : List infoCollector) (info : SysInfo) (w : List String) :
    (runOps ops info w).1 = ops.foldl (fun s o => (o s).1) info := by
  induction ops generalizing info w with
  | nil => rfl
  | cons o os ih =>
    have step : runOps (o :: os) info w = runOps os (o info).1 (w ++ (o info).2) := rfl
    rw [step, ih]
    rfl

/-- A collector that commutes with every collector of a list commutes with the loop
over the list. -/
theorem step_foldl_comm (a : infoCollector) (l : List infoCollector)
    (h : ∀ b ∈ l, ∀ s, (b (a s).1).1 = (a (b s).1).1) (s : SysInfo) :
    (a (l.foldl (fun s o => (o s).1) s)).1 = l.foldl (fun s o => (o s).1) (a s).1 := by
  induction l generalizing s with
  | nil => rfl
  | cons b bs ih =>
    simp only [List.foldl_cons]
    rw [ih (fun c hc => h c (List.mem_cons_of_mem _ hc)) (b s).1,
      h b (List.mem_cons_self _ _) s]

/-- A loop over pairwise commuting idempotent collectors is idempotent. -/
theorem foldl_idem (l : List infoCollector)
    (hcomm : ∀ a ∈ l, ∀ b ∈ l, ∀ s, (b (a s).1).1 = (a (b s).1).1)
    (hidem : ∀ a ∈ l, ∀ s, (a (a s).1).1 = (a s).1) (s : SysInfo) :
    l.foldl (fun s o => (o s).1) (l.foldl (fun s o => (o s).1) s) =
      l.foldl (fun s o => (o s).1) s := by
  induction l generalizing s with
  | nil => rfl
  | cons a as ih =>
    have hcomm' : ∀ x ∈ as, ∀ y ∈ as, ∀ s, (y (x s).1).1 = (x (y s).1).1 :=
      fun x hx y hy => hcomm x (List.mem_cons_of_mem _ hx) y (List.mem_cons_of_mem _ hy)
    have hidem' : ∀ x ∈ as, ∀ s, (x (x s).1).1 = (x s).1 :=
      fun x hx => hidem x (List.mem_cons_of_mem _ hx)
    have ha : ∀ b ∈ as, ∀ s, (b (a s).1).1 = (a (b s).1).1 :=
      fun b hb => hcomm a (List.mem_cons_self _ _) b (List.mem_cons_of_mem _ hb)
    simp only [List.foldl_cons]
    rw [step_foldl_comm a as ha, hidem a (List.mem_cons_self _ _), ih hcomm' hidem']

theorem v2Collectors_comm (env : Env) :
    ∀ a ∈ v2Collectors env, ∀ b ∈ v2Collectors env, ∀ s, (b (a s).1).1 = (a (b s).1).1 := by
  intro a ha b hb s
  simp only [v2Collectors, List.mem_cons, List.mem_singleton, List.not_mem_nil,
    or_false] at ha hb
  rcases ha with e | e | e | e | e | e <;> subst e
  · rcases hb with e | e | e | e | e | e <;> subst e
    · rfl
    · exact applyMemory_applyCPU_comm env s
    · exact applyMemory_applyIO_comm env s
    · exact applyMemory_applyCPUSet_comm env s
    · exact applyMemory_applyPIDS_comm env s
    · exact applyMemory_applyDevices_comm env s
  · rcases hb with e | e | e | e | e | e <;> subst e
    · exact (applyMemory_applyCPU_comm env s).symm
    · rfl
    · exact applyCPU_applyIO_comm s
    · exact applyCPU_applyCPUSet_comm env s
    · exact applyCPU_applyPIDS_comm s
    · exact applyCPU_applyDevices_comm env s
  · rcases hb with e | e | e | e | e | e <;> subst e
    · exact (applyMemory_applyIO_comm env s).symm
    · exact (applyCPU_applyIO_comm s).symm
    · rfl
    · exact applyIO_applyCPUSet_comm env s
    · exact applyIO_applyPIDS_comm s
    · exact applyIO_applyDevices_comm env s
  · rcases hb with e | e | e | e | e | e <;> subst e
    · exact (applyMemory_applyCPUSet_comm env s).symm
    · exact (applyCPU_applyCPUSet_comm env s).symm
    · exact (applyIO_applyCPUSet_comm env s).symm
    · rfl
    · exact applyCPUSet_applyPIDS_comm env s
    · exact applyCPUSet_applyDevices_comm env s
  · rcases hb with e | e | e | e | e | e <;> subst e
    · exact (applyMemory_applyPIDS_comm env s).symm
    · exact (applyCPU_applyPIDS_comm s).symm
    · exact (applyIO_applyPIDS_comm s).symm
    · exact (applyCPUSet_applyPIDS_comm env s).symm
    · rfl
    · exact applyPIDS_applyDevices_comm env s
  · rcases hb with e | e | e | e | e | e <;> subst e
    · exact (applyMemory_applyDevices_comm env s).symm
    · exact (applyCPU_applyDevices_comm env s).symm
    · exact (applyIO_applyDevices_comm env s).symm
    · exact (applyCPUSet_applyDevices_comm env s).symm
    · exact (applyPIDS_applyDevices_comm env s).symm
    · rfl

theorem v2Collectors_idem (env : Env) :
    ∀ a ∈ v2Collectors env, ∀ s, (a (a s).1).1 = (a s).1 := by
  intro a ha s
  simp only [v2Collectors, List.mem_cons, List.mem_singleton, List.not_mem_nil,
    or_false] at ha
  rcases ha with e | e | e | e | e | e <;> subst e
  · exact applyMemory_idem env s
  · exact applyCPU_idem s
  · exact applyIO_idem s
  · exact applyCPUSet_idem env s
  · exact applyPIDS_idem s
  · exact applyDevices_idem env s

/-- What a pass leaves when the manager cannot be loaded: the host collectors alone
ran, and the load error is logged before the warnings. -/
theorem newV2_failed (env : Env) (hc : HostCollectors) (quiet : Bool)
    (options : List Opt) (err : String)
    (hload : env.LoadManager "/sys/fs/cgroup" (optionsApplied options).cg2GroupPath
      = .error err) :
    (newV2 env hc quiet options).warnings = (runOps (hostOps hc) (optionsApplied options) []).2 ∧
      (newV2 env hc quiet options).logged =
        err :: (if quiet then [] else (runOps (hostOps hc) (optionsApplied options) []).2) := by
  simp only [newV2, optionsApplied] at hload ⊢
  rw [hload]
  exact ⟨rfl, rfl⟩

/-- What a pass logs: the messages of the loading stage, then the gathered warnings
unless quiet is set. -/
theorem newV2_logged (env : Env) (hc : HostCollectors) (quiet : Bool) (options : List Opt) :
    (newV2 env hc quiet options).logged =
      loadLog env options ++ (if quiet then [] else (newV2 env hc quiet options).warnings) := by
  unfold newV2 loadLog optionsApplied
  dsimp only
  split <;> rfl

/-- Collectors that hand back the snapshot they were given leave it as it was. -/
theorem runOps_frame (ops : List infoCollector) (h : ∀ c ∈ ops, ∀ s, (c s).1 = s)
    (info : SysInfo) (w : List String) : (runOps ops info w).1 = info :=
  runOps_invariant (fun s => s = info) ops (fun c hc s hs => (h c hc s).trans hs) info w rfl

/-- Collectors that return no warning add none. -/
theorem runOps_silent (ops : List infoCollector) (h : ∀ c ∈ ops, ∀ s, (c s).2 = [])
    (info : SysInfo) (w : List String) : (runOps ops info w).2 = w := by
  induction ops generalizing info w with
  | nil => rfl
  | cons o os ih =>
    have step : runOps (o :: os) info w = runOps os (o info).1 (w ++ (o info).2) := rfl
    rw [step, ih (fun c hc => h c (List.mem_cons_of_mem _ hc)),
      h o (List.mem_cons_self _ _) info, List.append_nil]

/-- The warnings of a v2 collector depend on the controller set alone. -/
theorem v2Collectors_warnings_congr (env : Env) :
    ∀ o ∈ v2Collectors env, ∀ s t : SysInfo, s.cg2Controllers = t.cg2Controllers →
      (o s).2 = (o t).2 := by
  intro o ho s t h
  simp only [v2Collectors, List.mem_cons, List.mem_singleton, List.not_mem_nil,
    or_false] at ho
  rcases ho with e | e | e | e | e | e <;> subst e
  · rw [applyMemory_warnings, applyMemory_warnings, hasController_congr h]
  · rw [applyCPU_warnings, applyCPU_warnings, hasController_congr h]
  · rw [applyIO_warnings, applyIO_warnings, hasController_congr h]
  · rw [applyCPUSet_warnings, applyCPUSet_warnings, hasController_congr h]
  · rw [applyPIDS_warnings, applyPIDS_warnings, hasController_congr h]
  · rfl

/-- The warnings of a loop over v2 collectors, in any order and number: those each
collector returns on the starting snapshot, one after the other. -/
theorem runOps_warnings_flatMap (env : Env) (ops : List infoCollector)
    (hsub : ∀ o ∈ ops, o ∈ v2Collectors env) (info s : SysInfo) (w : List String)
    (hs : s.cg2Controllers = info.cg2Controllers) :
    (runOps ops s w).2 = w ++ ops.flatMap (fun o => (o info).2) := by
  induction ops generalizing s w with
  | nil => simp [runOps]
  | cons o os ih =>
    have ho : o ∈ v2Collectors env := hsub o (List.mem_cons_self _ _)
    have step : runOps (o :: os) s w = runOps os (o s).1 (w ++ (o s).2) := rfl
    rw [step, ih (fun c hc => hsub c (List.mem_cons_of_mem _ hc)) (o s).1 _
      ((v2Collectors_keep env o ho s).trans hs),
      v2Collectors_warnings_congr env o ho s info hs]
    simp [List.flatMap_cons]

theorem silentHost_frame : ∀ c ∈ hostOps silentHost, ∀ s, (c s).1 = s := by
  intro c hc s
  simp only [hostOps, silentHost, List.mem_cons, List.mem_singleton, List.not_mem_nil,
    or_false] at hc
  rcases hc with h | h | h | h <;> subst h <;> rfl

theorem silentHost_silent : ∀ c ∈ hostOps silentHost, ∀ s, (c s).2 = [] := by
  intro c hc s
  simp only [hostOps, silentHost, List.mem_cons, List.mem_singleton, List.not_mem_nil,
    or_false] at hc
  rcases hc with h | h | h | h <;> subst h <;> rfl

/-! ## The claims -/

/-- C1: on the default snapshot, whatever the scope path and the host answers, each
subsystem collector leaves its primary flag (MemoryLimit, CPUShares, BlkioWeight,
Cpuset, PidsLimit) true exactly when its controller is a member of the controller
set. -/
theorem primary_flag_iff_member (env : Env) (p : String) (S : List String) :
    ((applyMemoryCgroupInfoV2 env (defaultSnapshot p (some S))).1.MemoryLimit = true
        ↔ "memory" ∈ S) ∧
    ((applyCPUCgroupInfoV2 (defaultSnapshot p (some S))).1.CPUShares = true ↔ "cpu" ∈ S) ∧
    ((applyIOCgroupInfoV2 (defaultSnapshot p (some S))).1.BlkioWeight = true ↔ "io" ∈ S) ∧
    ((applyCPUSetCgroupInfoV2 env (defaultSnapshot p (some S))).1.Cpuset = true
        ↔ "cpuset" ∈ S) ∧
    ((applyPIDSCgroupInfoV2 (defaultSnapshot p (some S))).1.PidsLimit = true
        ↔ "pids" ∈ S) := by
  have hc : ∀ n, hasController (defaultSnapshot p (some S)) n = decide (n ∈ S) :=
    fun n => hasController_some _ S n rfl
  rw [applyMemory_MemoryLimit, applyCPU_CPUShares, applyIO_BlkioWeight, applyCPUSet_Cpuset,
    applyPIDS_PidsLimit]
  simp only [hc]
  simp [defaultSnapshot]

/-- C2: when the manager is loaded and `m.Controllers()` returns the names `cs`
without error, the warnings of the pass are those of the host collectors followed by
the list memory, cpu, io, cpuset, pids filtered to the names not in `cs` and mapped to
"Unable to find NAME controller"; the devices collector adds none. -/
theorem loaded_pass_warnings (env : Env) (hc : HostCollectors) (quiet : Bool)
    (options : List Opt) (m : Manager) (cs : List String)
    (hload : env.LoadManager "/sys/fs/cgroup" (optionsApplied options).cg2GroupPath = .ok m)
    (hctl : m.Controllers = (cs, none))
    (hhost : hc.KeepControllers) :
    (newV2 env hc quiet options).warnings =
      (runOps (hostOps hc) (loadedSnapshot options cs) []).2 ++
        (["memory", "cpu", "io", "cpuset", "pids"].filter (fun n => decide (n ∉ cs))).map
          (fun n => "Unable to find " ++ n ++ " controller") := by
  rw [newV2_warnings_loaded env hc quiet options m hload hhost, hctl]
  simp [absentWarnings, subsystems, unableToFind, List.filter]

/-- C2, at the host with the controllers memory, cpu and pids: the pass warns about
io and cpuset only, in that order. -/
theorem loaded_pass_warnings_witness :
    hostMemCpuPids.LoadManager "/sys/fs/cgroup" (optionsApplied []).cg2GroupPath
        = .ok { Controllers := (["memory", "cpu", "pids"], none) } ∧
      silentHost.KeepControllers ∧
      (newV2 hostMemCpuPids silentHost false []).warnings =
        ["Unable to find io controller", "Unable to find cpuset controller"] :=
  ⟨rfl, silentHost_keeps,
    (loaded_pass_warnings hostMemCpuPids silentHost false []
      { Controllers := (["memory", "cpu", "pids"], none) } ["memory", "cpu", "pids"]
      rfl rfl silentHost_keeps).trans (by decide)⟩

/-- C3, refuted for a manager that cannot be loaded: at such a host the pass runs
none of the subsystem collectors, so it gathers no warning at all and the controller
set stays the nil map instead of becoming an empty set. -/
theorem load_failure_runs_no_collector :
    hostNoManager.LoadManager "/sys/fs/cgroup" (optionsApplied []).cg2GroupPath
        = .error "cgroups: invalid group path" ∧
      (newV2 hostNoManager silentHost false []).warnings = [] ∧
      "Unable to find memory controller" ∉ (newV2 hostNoManager silentHost false []).warnings ∧
      (newV2 hostNoManager silentHost false []).sysInfo.cg2Controllers = none :=
  ⟨rfl, rfl, by decide, rfl⟩

/-- C3, amended: when the manager is loaded but `m.Controllers()` fails, returning
an error and no names, the pass goes on with an empty controller set and, after the
warnings of the host collectors, gathers the "Unable to find" warning of memory, cpu,
io, cpuset and pids once each, in that order. -/
theorem enumeration_failure_warns_all (env : Env) (hc : HostCollectors) (quiet : Bool)
    (options : List Opt) (m : Manager) (err : String)
    (hload : env.LoadManager "/sys/fs/cgroup" (optionsApplied options).cg2GroupPath = .ok m)
    (hctl : m.Controllers = ([], some err))
    (hhost : hc.KeepControllers) :
    (newV2 env hc quiet options).sysInfo.cg2Controllers = some [] ∧
      (newV2 env hc quiet options).warnings =
        (runOps (hostOps hc) (loadedSnapshot options []) []).2 ++
          ["Unable to find memory controller", "Unable to find cpu controller",
            "Unable to find io controller", "Unable to find cpuset controller",
            "Unable to find pids controller"] := by
  constructor
  · rw [newV2_controllers_loaded env hc quiet options m hload hhost, hctl]
    rfl
  · rw [newV2_warnings_loaded env hc quiet options m hload hhost, hctl]
    rfl

/-- C3, amended, at a host whose manager loads but cannot read `cgroup.controllers`. -/
theorem enumeration_failure_warns_all_witness :
    (newV2 hostNoControllers silentHost false []).sysInfo.cg2Controllers = some [] ∧
      (newV2 hostNoControllers silentHost false []).warnings =
        (runOps (hostOps silentHost) (loadedSnapshot [] []) []).2 ++
          ["Unable to find memory controller", "Unable to find cpu controller",
            "Unable to find io controller", "Unable to find cpuset controller",
            "Unable to find pids controller"] :=
  enumeration_failure_warns_all hostNoControllers silentHost false []
    { Controllers := ([], some "open /sys/fs/cgroup/cgroup.controllers: permission denied") }
    "open /sys/fs/cgroup/cgroup.controllers: permission denied" rfl rfl silentHost_keeps

/-- C4, refuted for an existence check that fails otherwise than with "does not
exist": the scope lookup gives `/user.slice`, `os.Stat` on its `memory.swap.max`
fails with "permission denied", and the detector answers true. -/
theorem stat_error_reports_swap_limit :
    hostStatDenied.ParseCgroupFile "/proc/self/cgroup" = .ok [("", "/user.slice")] ∧
      pathJoin ["/sys/fs/cgroup", "/user.slice", "memory.swap.max"]
        = "/sys/fs/cgroup/user.slice/memory.swap.max" ∧
      hostStatDenied.Stat "/sys/fs/cgroup/user.slice/memory.swap.max"
        = some (StatError.other "permission denied") ∧
      getSwapLimitV2 hostStatDenied = true :=
  ⟨rfl, by decide, by decide, by decide⟩

/-- C4, amended: the detector answers true exactly when the own-scope lookup
succeeds, yields a non-empty scope `g`, and `os.Stat` on `memory.swap.max` under
`/sys/fs/cgroup/g` does not fail with "does not exist" (it succeeds, or fails with any
other error); a failed lookup, an empty scope and a missing file give false.  The
result is a plain boolean, so no error reaches the caller. -/
theorem getSwapLimitV2_eq_true_iff (env : Env) :
    getSwapLimitV2 env = true ↔
      ∃ groups, env.ParseCgroupFile "/proc/self/cgroup" = .ok groups ∧
        mapIndex groups "" ≠ "" ∧
        env.Stat (pathJoin ["/sys/fs/cgroup", mapIndex groups "", "memory.swap.max"])
          ≠ some StatError.notExist := by
  unfold getSwapLimitV2
  cases hp : env.ParseCgroupFile "/proc/self/cgroup" with
  | error e => simp
  | ok groups =>
    by_cases hg : mapIndex groups "" = ""
    · simp [hg]
    · cases hs : env.Stat (pathJoin ["/sys/fs/cgroup", mapIndex groups "", "memory.swap.max"]) with
      | none => simp [hg, hs, IsNotExist]
      | some e => cases e <;> simp [hg, hs, IsNotExist]

/-- C5: a subsystem collector whose controller is not in the controller set returns
the single warning "Unable to find NAME controller" and hands back the snapshot it was
given, every field as it was, for memory, cpu, io, cpuset and pids alike. -/
theorem absent_controller_warns_only (env : Env) (info : SysInfo) (S : List String)
    (hS : info.cg2Controllers = some S) :
    ("memory" ∉ S →
        applyMemoryCgroupInfoV2 env info = (info, ["Unable to find memory controller"])) ∧
    ("cpu" ∉ S → applyCPUCgroupInfoV2 info = (info, ["Unable to find cpu controller"])) ∧
    ("io" ∉ S → applyIOCgroupInfoV2 info = (info, ["Unable to find io controller"])) ∧
    ("cpuset" ∉ S →
        applyCPUSetCgroupInfoV2 env info = (info, ["Unable to find cpuset controller"])) ∧
    ("pids" ∉ S → applyPIDSCgroupInfoV2 info = (info, ["Unable to find pids controller"])) := by
  refine ⟨fun h => ?_, fun h => ?_, fun h => ?_, fun h => ?_, fun h => ?_⟩
  · simp [applyMemoryCgroupInfoV2, hasController_of_not_mem info S _ hS h]
  · simp [applyCPUCgroupInfoV2, hasController_of_not_mem info S _ hS h]
  · simp [applyIOCgroupInfoV2, hasController_of_not_mem info S _ hS h]
  · simp [applyCPUSetCgroupInfoV2, hasController_of_not_mem info S _ hS h]
  · simp [applyPIDSCgroupInfoV2, hasController_of_not_mem info S _ hS h]

/-- C5, at a used snapshot whose controller set holds the devices name only: each of
the five collectors returns its warning and the snapshot untouched. -/
theorem absent_controller_warns_only_witness :
    applyMemoryCgroupInfoV2 hostMemCpuPids (usedSnapshot (some ["devices"]))
        = (usedSnapshot (some ["devices"]), ["Unable to find memory controller"]) ∧
    applyCPUCgroupInfoV2 (usedSnapshot (some ["devices"]))
        = (usedSnapshot (some ["devices"]), ["Unable to find cpu controller"]) ∧
    applyIOCgroupInfoV2 (usedSnapshot (some ["devices"]))
        = (usedSnapshot (some ["devices"]), ["Unable to find io controller"]) ∧
    applyCPUSetCgroupInfoV2 hostMemCpuPids (usedSnapshot (some ["devices"]))
        = (usedSnapshot (some ["devices"]), ["Unable to find cpuset controller"]) ∧
    applyPIDSCgroupInfoV2 (usedSnapshot (some ["devices"]))
        = (usedSnapshot (some ["devices"]), ["Unable to find pids controller"]) :=
  have h := absent_controller_warns_only hostMemCpuPids (usedSnapshot (some ["devices"]))
    ["devices"] rfl
  ⟨h.1 (by decide), h.2.1 (by decide), h.2.2.1 (by decide), h.2.2.2.1 (by decide),
    h.2.2.2.2 (by decide)⟩

/-- C6: a collector whose controller is in the controller set returns no warning and
writes its fixed table, every other field kept: memory sets MemoryLimit and
MemoryReservation, stores the swap detector's answer in SwapLimit and clears
OomKillDisable, MemorySwappiness, KernelMemory and KernelMemoryTCP; cpu sets CPUShares
and CPUCfs and clears CPURealtime; io sets the six Blkio flags; pids sets PidsLimit. -/
theorem present_controller_writes_table (env : Env) (info : SysInfo) (S : List String)
    (hS : info.cg2Controllers = some S) :
    ("memory" ∈ S →
        applyMemoryCgroupInfoV2 env info =
          ({ info with
              MemoryLimit := true
              SwapLimit := getSwapLimitV2 env
              MemoryReservation := true
              OomKillDisable := false
              MemorySwappiness := false
              KernelMemory := false
              KernelMemoryTCP := false }, [])) ∧
    ("cpu" ∈ S →
        applyCPUCgroupInfoV2 info =
          ({ info with CPUShares := true, CPUCfs := true, CPURealtime := false }, [])) ∧
    ("io" ∈ S →
        applyIOCgroupInfoV2 info =
          ({ info with
              BlkioWeight := true
              BlkioWeightDevice := true
              BlkioReadBpsDevice := true
              BlkioWriteBpsDevice := true
              BlkioReadIOpsDevice := true
              BlkioWriteIOpsDevice := true }, [])) ∧
    ("pids" ∈ S → applyPIDSCgroupInfoV2 info = ({ info with PidsLimit := true }, [])) := by
  refine ⟨fun h => ?_, fun h => ?_, fun h => ?_, fun h => ?_⟩
  · simp [applyMemoryCgroupInfoV2, hasController_of_mem info S _ hS h]
  · simp [applyCPUCgroupInfoV2, hasController_of_mem info S _ hS h]
  · simp [applyIOCgroupInfoV2, hasController_of_mem info S _ hS h]
  · simp [applyPIDSCgroupInfoV2, hasController_of_mem info S _ hS h]

/-- C6, at a used snapshot whose controller set holds memory, cpu, io and pids, on a
host where the scope lookup fails: the four tables are written and SwapLimit, true
before, is overwritten with the detector's false. -/
theorem present_controller_writes_table_witness :
    (applyMemoryCgroupInfoV2 hostNoManager (usedSnapshot (some ["memory", "cpu", "io", "pids"])) =
      ({ usedSnapshot (some ["memory", "cpu", "io", "pids"]) with
          MemoryLimit := true
          SwapLimit := getSwapLimitV2 hostNoManager
          MemoryReservation := true
          OomKillDisable := false
          MemorySwappiness := false
          KernelMemory := false
          KernelMemoryTCP := false }, []) ∧
      getSwapLimitV2 hostNoManager = false) ∧
    applyCPUCgroupInfoV2 (usedSnapshot (some ["memory", "cpu", "io", "pids"])) =
      ({ usedSnapshot (some ["memory", "cpu", "io", "pids"]) with
          CPUShares := true, CPUCfs := true, CPURealtime := false }, []) ∧
    applyIOCgroupInfoV2 (usedSnapshot (some ["memory", "cpu", "io", "pids"])) =
      ({ usedSnapshot (some ["memory", "cpu", "io", "pids"]) with
          BlkioWeight := true
          BlkioWeightDevice := true
          BlkioReadBpsDevice := true
          BlkioWriteBpsDevice := true
          BlkioReadIOpsDevice := true
          BlkioWriteIOpsDevice := true }, []) ∧
    applyPIDSCgroupInfoV2 (usedSnapshot (some ["memory", "cpu", "io", "pids"])) =
      ({ usedSnapshot (some ["memory", "cpu", "io", "pids"]) with PidsLimit := true }, []) :=
  have h := present_controller_writes_table hostNoManager
    (usedSnapshot (some ["memory", "cpu", "io", "pids"])) ["memory", "cpu", "io", "pids"] rfl
  ⟨⟨h.1 (by decide), by decide⟩, h.2.1 (by decide), h.2.2.1 (by decide), h.2.2.2 (by decide)⟩

/-- C7: for every snapshot and every controller set, nil map included, the devices
collector sets CgroupDevicesEnabled to the negation of "running in a user namespace",
returns no warning, and leaves every other field as it was; flag and warnings are the
same whatever the controller set is. -/
theorem devices_follow_user_namespace (env : Env) (info : SysInfo)
    (S S' : Option (List String)) :
    (applyDevicesCgroupInfoV2 env { info with cg2Controllers := S }).1.CgroupDevicesEnabled
        = !env.RunningInUserNS ∧
    (applyDevicesCgroupInfoV2 env { info with cg2Controllers := S }).2 = [] ∧
    { (applyDevicesCgroupInfoV2 env { info with cg2Controllers := S }).1 with
        CgroupDevicesEnabled := info.CgroupDevicesEnabled } = { info with cg2Controllers := S } ∧
    (applyDevicesCgroupInfoV2 env { info with cg2Controllers := S }).1.CgroupDevicesEnabled
        = (applyDevicesCgroupInfoV2 env { info with cg2Controllers := S' }).1.CgroupDevicesEnabled ∧
    (applyDevicesCgroupInfoV2 env { info with cg2Controllers := S }).2
        = (applyDevicesCgroupInfoV2 env { info with cg2Controllers := S' }).2 :=
  ⟨rfl, rfl, rfl, rfl, rfl⟩

/-- C8, refuted for a failed first read: with cpuset in the controller set,
`cpuset.cpus.effective` unreadable and `cpuset.mems.effective` holding `0`, the
collector returns before the second read and Mems stays empty instead of `0`. -/
theorem mems_skipped_after_failed_cpus_read :
    hostCpusUnreadable.ReadFile (pathJoin ["/sys/fs/cgroup", "/", "cpuset.cpus.effective"])
        = .error "permission denied" ∧
      hostCpusUnreadable.ReadFile (pathJoin ["/sys/fs/cgroup", "/", "cpuset.mems.effective"])
        = .ok "0\n" ∧
      TrimSpace "0\n" = "0" ∧
      (applyCPUSetCgroupInfoV2 hostCpusUnreadable (defaultSnapshot "/" (some ["cpuset"]))).1.Mems
        = "" :=
  ⟨rfl, rfl, by decide, by decide⟩

/-- C8, amended: with cpuset in the controller set the collector, run on the default
snapshot, returns no warning whatever the reads do; Cpus is the trimmed content of
`cpuset.cpus.effective` when that read succeeds and empty when it fails; Mems is the
trimmed content of `cpuset.mems.effective` when both reads succeed and empty when
either fails, the second file not being read after a failed first read. -/
theorem cpuset_reads (env : Env) (p : String) (S : List String) (h : "cpuset" ∈ S) :
    (applyCPUSetCgroupInfoV2 env (defaultSnapshot p (some S))).2 = [] ∧
    (applyCPUSetCgroupInfoV2 env (defaultSnapshot p (some S))).1.Cpus =
      (match env.ReadFile (pathJoin ["/sys/fs/cgroup", p, "cpuset.cpus.effective"]) with
        | .ok cpus => TrimSpace cpus
        | .error _ => "") ∧
    (applyCPUSetCgroupInfoV2 env (defaultSnapshot p (some S))).1.Mems =
      (match env.ReadFile (pathJoin ["/sys/fs/cgroup", p, "cpuset.cpus.effective"]),
          env.ReadFile (pathJoin ["/sys/fs/cgroup", p, "cpuset.mems.effective"]) with
        | .ok _, .ok mems => TrimSpace mems
        | _, _ => "") := by
  have hc : hasController (defaultSnapshot p (some S)) "cpuset" = true :=
    hasController_of_mem _ S _ rfl h
  have hp : (defaultSnapshot p (some S)).cg2GroupPath = p := rfl
  have hC : (defaultSnapshot p (some S)).Cpus = "" := rfl
  have hM : (defaultSnapshot p (some S)).Mems = "" := rfl
  generalize defaultSnapshot p (some S) = info at hc hp hC hM
  simp only [applyCPUSetCgroupInfoV2, hc, hp, Bool.not_true, Bool.false_eq_true, if_false]
  cases env.ReadFile (pathJoin ["/sys/fs/cgroup", p, "cpuset.cpus.effective"]) with
  | error e => exact ⟨rfl, hC, hM⟩
  | ok cpus =>
    cases env.ReadFile (pathJoin ["/sys/fs/cgroup", p, "cpuset.mems.effective"]) with
    | error e => exact ⟨rfl, rfl, hM⟩
    | ok mems => exact ⟨rfl, rfl, rfl⟩

/-- C8, amended, at the host whose `cpuset.cpus.effective` is unreadable. -/
theorem cpuset_reads_witness :
    (applyCPUSetCgroupInfoV2 hostCpusUnreadable (defaultSnapshot "/" (some ["cpuset"]))).2 = [] ∧
    (applyCPUSetCgroupInfoV2 hostCpusUnreadable (defaultSnapshot "/" (some ["cpuset"]))).1.Cpus =
      (match hostCpusUnreadable.ReadFile
          (pathJoin ["/sys/fs/cgroup", "/", "cpuset.cpus.effective"]) with
        | .ok cpus => TrimSpace cpus
        | .error _ => "") ∧
    (applyCPUSetCgroupInfoV2 hostCpusUnreadable (defaultSnapshot "/" (some ["cpuset"]))).1.Mems =
      (match hostCpusUnreadable.ReadFile
            (pathJoin ["/sys/fs/cgroup", "/", "cpuset.cpus.effective"]),
          hostCpusUnreadable.ReadFile
            (pathJoin ["/sys/fs/cgroup", "/", "cpuset.mems.effective"]) with
        | .ok _, .ok mems => TrimSpace mems
        | _, _ => "") :=
  cpuset_reads hostCpusUnreadable "/" ["cpuset"] (by decide)

/-- C9: in the snapshot the six collectors leave when run from the default snapshot,
whatever the controller set `S`, the scope path and the host answers, a flag is true
only if it is backed: MemoryLimit, SwapLimit or MemoryReservation by memory in `S`,
CPUShares or CPUCfs by cpu, any Blkio flag by io, Cpuset or a non-empty Cpus or Mems
by cpuset, PidsLimit by pids, and CgroupDevicesEnabled by the process being outside a
user namespace. -/
theorem flags_true_only_if_backed (env : Env) (p : String) (S : List String) :
    ((runOps (v2Collectors env) (defaultSnapshot p (some S)) []).1.MemoryLimit = true ∨
      (runOps (v2Collectors env) (defaultSnapshot p (some S)) []).1.SwapLimit = true ∨
      (runOps (v2Collectors env) (defaultSnapshot p (some S)) []).1.MemoryReservation = true →
        "memory" ∈ S) ∧
    ((runOps (v2Collectors env) (defaultSnapshot p (some S)) []).1.CPUShares = true ∨
      (runOps (v2Collectors env) (defaultSnapshot p (some S)) []).1.CPUCfs = true →
        "cpu" ∈ S) ∧
    ((runOps (v2Collectors env) (defaultSnapshot p (some S)) []).1.BlkioWeight = true ∨
      (runOps (v2Collectors env) (defaultSnapshot p (some S)) []).1.BlkioWeightDevice = true ∨
      (runOps (v2Collectors env) (defaultSnapshot p (some S)) []).1.BlkioReadBpsDevice = true ∨
      (runOps (v2Collectors env) (defaultSnapshot p (some S)) []).1.BlkioWriteBpsDevice = true ∨
      (runOps (v2Collectors env) (defaultSnapshot p (some S)) []).1.BlkioReadIOpsDevice = true ∨
      (runOps (v2Collectors env) (defaultSnapshot p (some S)) []).1.BlkioWriteIOpsDevice = true →
        "io" ∈ S) ∧
    ((runOps (v2Collectors env) (defaultSnapshot p (some S)) []).1.Cpuset = true ∨
      (runOps (v2Collectors env) (defaultSnapshot p (some S)) []).1.Cpus ≠ "" ∨
      (runOps (v2Collectors env) (defaultSnapshot p (some S)) []).1.Mems ≠ "" →
        "cpuset" ∈ S) ∧
    ((runOps (v2Collectors env) (defaultSnapshot p (some S)) []).1.PidsLimit = true →
        "pids" ∈ S) ∧
    ((runOps (v2Collectors env) (defaultSnapshot p (some S)) []).1.CgroupDevicesEnabled = true →
        env.RunningInUserNS = false) := by
  have h0 : Backed env S (defaultSnapshot p (some S)) := by
    simp [Backed, defaultSnapshot]
  exact v2Collectors_backed env S (defaultSnapshot p (some S)) ⟨rfl, h0⟩

/-- C10: "OomKillDisable, MemorySwappiness, KernelMemory, KernelMemoryTCP and
CPURealtime are all false" is kept by each of the six collectors, whatever the
controller set holds; so the five flags are false in the snapshot the six collectors
leave when run from the default snapshot, and in the snapshot a pass without options
returns whenever the host collectors keep them false too. -/
theorem legacy_flags_stay_false (env : Env) :
    (∀ info, LegacyOff info → LegacyOff (applyMemoryCgroupInfoV2 env info).1) ∧
    (∀ info, LegacyOff info → LegacyOff (applyCPUCgroupInfoV2 info).1) ∧
    (∀ info, LegacyOff info → LegacyOff (applyIOCgroupInfoV2 info).1) ∧
    (∀ info, LegacyOff info → LegacyOff (applyCPUSetCgroupInfoV2 env info).1) ∧
    (∀ info, LegacyOff info → LegacyOff (applyPIDSCgroupInfoV2 info).1) ∧
    (∀ info, LegacyOff info → LegacyOff (applyDevicesCgroupInfoV2 env info).1) ∧
    (∀ (p : String) (S : Option (List String)),
      LegacyOff (runOps (v2Collectors env) (defaultSnapshot p S) []).1) ∧
    (∀ (hc : HostCollectors) (quiet : Bool),
      (∀ o ∈ hostOps hc, ∀ s, LegacyOff s → LegacyOff (o s).1) →
        LegacyOff (newV2 env hc quiet []).sysInfo) := by
  refine ⟨applyMemory_legacyOff env, applyCPU_legacyOff, applyIO_legacyOff,
    applyCPUSet_legacyOff env, applyPIDS_legacyOff, applyDevices_legacyOff env, ?_, ?_⟩
  · intro p S
    exact runOps_invariant LegacyOff _ (v2Collectors_legacyOff env) _ _ ⟨rfl, rfl, rfl, rfl, rfl⟩
  · intro hc quiet hhost
    cases hload : env.LoadManager "/sys/fs/cgroup" (optionsApplied []).cg2GroupPath with
    | error err =>
      rw [newV2_sysInfo_failed env hc quiet [] err hload]
      exact runOps_invariant LegacyOff _ hhost _ _ ⟨rfl, rfl, rfl, rfl, rfl⟩
    | ok m =>
      rw [newV2_sysInfo_loaded env hc quiet [] m hload]
      refine runOps_invariant LegacyOff _ ?_ _ _ ⟨rfl, rfl, rfl, rfl, rfl⟩
      intro o ho
      rcases List.mem_append.mp ho with h | h
      · exact hhost o h
      · exact v2Collectors_legacyOff env o h

/-- C11: the pipeline of the six collectors is idempotent: run again on the
snapshot a first run left, with the same host answers (the controller set and the
scope path travel in the snapshot), it returns that snapshot unchanged and the same
warning list as the first run, for every input snapshot. -/
theorem pipeline_idempotent (env : Env) (info : SysInfo) :
    runOps (v2Collectors env) (runOps (v2Collectors env) info []).1 [] =
      runOps (v2Collectors env) info [] := by
  apply Prod.ext
  · rw [runOps_fst, runOps_fst]
    exact foldl_idem (v2Collectors env) (v2Collectors_comm env) (v2Collectors_idem env) info
  · rw [v2Collectors_warnings, v2Collectors_warnings]
    congr 2
    funext n
    exact hasController_congr
      (runOps_keepsControllers (v2Collectors env) (v2Collectors_keep env) info []) n

/-- C12: the quiet flag changes neither the returned snapshot nor the gathered
warnings; what `newV2` logs is the messages of the loading stage followed, when quiet
is false, by every gathered warning once, in the order gathered, and by none of them
when quiet is true. -/
theorem quiet_gates_only_the_log (env : Env) (hc : HostCollectors) (options : List Opt) :
    (newV2 env hc true options).sysInfo = (newV2 env hc false options).sysInfo ∧
    (newV2 env hc true options).warnings = (newV2 env hc false options).warnings ∧
    (newV2 env hc false options).logged =
      loadLog env options ++ (newV2 env hc false options).warnings ∧
    (newV2 env hc true options).logged = loadLog env options := by
  refine ⟨rfl, rfl, ?_, ?_⟩
  · exact newV2_logged env hc false options
  · rw [newV2_logged env hc true options]
    exact List.append_nil _

/-- C13: when the manager cannot be loaded, none of the six v2 collectors runs: the
pass returns what the host collectors leave of the snapshot the options built, its
warnings are theirs, and it logs the load error followed, unless quiet, by those
warnings.  With host collectors that write no field of the snapshot and return no
warning, the controller set, every flag (CgroupDevicesEnabled included) and both
strings keep the value they had after the options, no warning is gathered, and the
load error is the only message logged, whatever quiet is. -/
theorem load_failure_skips_v2 (env : Env) (hc : HostCollectors) (quiet : Bool)
    (options : List Opt) (err : String)
    (hload : env.LoadManager "/sys/fs/cgroup" (optionsApplied options).cg2GroupPath
      = .error err)
    (hframe : ∀ c ∈ hostOps hc, ∀ s, (c s).1 = s)
    (hsilent : ∀ c ∈ hostOps hc, ∀ s, (c s).2 = []) :
    (newV2 env hc quiet options).sysInfo = (runOps (hostOps hc) (optionsApplied options) []).1 ∧
    (newV2 env hc quiet options).warnings = (runOps (hostOps hc) (optionsApplied options) []).2 ∧
    (newV2 env hc quiet options).sysInfo = optionsApplied options ∧
    (newV2 env hc quiet options).sysInfo.cg2Controllers
      = (optionsApplied options).cg2Controllers ∧
    (newV2 env hc quiet options).sysInfo.CgroupDevicesEnabled
      = (optionsApplied options).CgroupDevicesEnabled ∧
    (newV2 env hc quiet options).warnings = [] ∧
    (newV2 env hc quiet options).logged = [err] := by
  have hs := newV2_sysInfo_failed env hc quiet options err hload
  have hw := (newV2_failed env hc quiet options err hload).1
  have hl := (newV2_failed env hc quiet options err hload).2
  have hs' : (newV2 env hc quiet options).sysInfo = optionsApplied options :=
    hs.trans (runOps_frame (hostOps hc) hframe _ _)
  have hw' : (newV2 env hc quiet options).warnings = [] :=
    hw.trans (runOps_silent (hostOps hc) hsilent _ _)
  refine ⟨hs, hw, hs', by rw [hs'], by rw [hs'], hw', ?_⟩
  rw [hl, runOps_silent (hostOps hc) hsilent]
  cases quiet <;> rfl

/-- C13, at a host without a loadable manager whose process is outside a user
namespace, quiet off: the controller set stays the nil map, CgroupDevicesEnabled
stays false, no warning is gathered and only the load error is logged. -/
theorem load_failure_skips_v2_witness :
    hostNoManager.RunningInUserNS = false ∧
    (newV2 hostNoManager silentHost false []).sysInfo = optionsApplied [] ∧
    (newV2 hostNoManager silentHost false []).sysInfo.cg2Controllers = none ∧
    (newV2 hostNoManager silentHost false []).sysInfo.CgroupDevicesEnabled = false ∧
    (newV2 hostNoManager silentHost false []).warnings = [] ∧
    (newV2 hostNoManager silentHost false []).logged = ["cgroups: invalid group path"] :=
  have h := load_failure_skips_v2 hostNoManager silentHost false []
    "cgroups: invalid group path" rfl silentHost_frame silentHost_silent
  ⟨rfl, h.2.2.1, h.2.2.2.1, h.2.2.2.2.1, h.2.2.2.2.2.1, h.2.2.2.2.2.2⟩

/-- C14: each of the six collectors writes inside its own group of fields (putting
the input values of that group back gives the input snapshot), the groups being
pairwise disjoint; any two collectors commute on the snapshot, for every input
snapshot and every host; so the loop over any reordering of the pipeline leaves the
same snapshot as the pipeline, and its warnings are those of the pipeline in another
order. -/
theorem collectors_commute (env : Env) :
    (∀ info,
      { (applyMemoryCgroupInfoV2 env info).1 with
          MemoryLimit := info.MemoryLimit
          SwapLimit := info.SwapLimit
          MemoryReservation := info.MemoryReservation
          OomKillDisable := info.OomKillDisable
          MemorySwappiness := info.MemorySwappiness
          KernelMemory := info.KernelMemory
          KernelMemoryTCP := info.KernelMemoryTCP } = info) ∧
    (∀ info,
      { (applyCPUCgroupInfoV2 info).1 with
          CPUShares := info.CPUShares
          CPUCfs := info.CPUCfs
          CPURealtime := info.CPURealtime } = info) ∧
    (∀ info,
      { (applyIOCgroupInfoV2 info).1 with
          BlkioWeight := info.BlkioWeight
          BlkioWeightDevice := info.BlkioWeightDevice
          BlkioReadBpsDevice := info.BlkioReadBpsDevice
          BlkioWriteBpsDevice := info.BlkioWriteBpsDevice
          BlkioReadIOpsDevice := info.BlkioReadIOpsDevice
          BlkioWriteIOpsDevice := info.BlkioWriteIOpsDevice } = info) ∧
    (∀ info,
      { (applyCPUSetCgroupInfoV2 env info).1 with
          Cpuset := info.Cpuset
          Cpus := info.Cpus
          Mems := info.Mems } = info) ∧
    (∀ info, { (applyPIDSCgroupInfoV2 info).1 with PidsLimit := info.PidsLimit } = info) ∧
    (∀ info,
      { (applyDevicesCgroupInfoV2 env info).1 with
          CgroupDevicesEnabled := info.CgroupDevicesEnabled } = info) ∧
    (∀ A ∈ v2Collectors env, ∀ B ∈ v2Collectors env, ∀ info,
      (B (A info).1).1 = (A (B info).1).1) ∧
    (∀ ops : List infoCollector, ops.Perm (v2Collectors env) → ∀ info,
      (runOps ops info []).1 = (runOps (v2Collectors env) info []).1 ∧
      ((runOps ops info []).2).Perm (runOps (v2Collectors env) info []).2) := by
  refine ⟨fun info => ?_, fun info => ?_, fun info => ?_, fun info => ?_, fun info => ?_,
    fun info => rfl, v2Collectors_comm env, fun ops hperm info => ⟨?_, ?_⟩⟩
  · unfold applyMemoryCgroupInfoV2
    split <;> rfl
  · unfold applyCPUCgroupInfoV2
    split <;> rfl
  · unfold applyIOCgroupInfoV2
    split <;> rfl
  · unfold applyCPUSetCgroupInfoV2
    split
    · rfl
    · dsimp only
      split
      · rfl
      · split <;> rfl
  · unfold applyPIDSCgroupInfoV2
    split <;> rfl
  · rw [runOps_fst, runOps_fst]
    exact hperm.foldl_eq'
      (fun x hx y hy z => v2Collectors_comm env x (hperm.subset hx) y (hperm.subset hy) z) info
  · rw [runOps_warnings_flatMap env ops (fun o ho => hperm.subset ho) info info [] rfl,
      runOps_warnings_flatMap env (v2Collectors env) (fun o ho => ho) info info [] rfl]
    exact (hperm.flatMap_right _).append_left []

/-- C14, at the pipeline run backwards on a used snapshot with the memory and io
controllers: the snapshot is the one the pipeline leaves, the warnings are the
pipeline's in another order. -/
theorem collectors_commute_witness :
    (runOps (v2Collectors hostMemCpuPids).reverse (usedSnapshot (some ["memory", "io"])) []).1 =
      (runOps (v2Collectors hostMemCpuPids) (usedSnapshot (some ["memory", "io"])) []).1 ∧
    ((runOps (v2Collectors hostMemCpuPids).reverse
        (usedSnapshot (some ["memory", "io"])) []).2).Perm
      (runOps (v2Collectors hostMemCpuPids) (usedSnapshot (some ["memory", "io"])) []).2 :=
  (collectors_commute hostMemCpuPids).2.2.2.2.2.2.2 (v2Collectors hostMemCpuPids).reverse
    (List.reverse_perm _) (usedSnapshot (some ["memory", "io"]))

end Sysinfo
